import Mathlib

/-!
Verification of the Flask backend `app.py` of the voice-chatbot repository.

The `/chat` handler (`chat` in `app.py`) and the `/health` handler are
shallowly embedded below.  Request and response bodies are modelled as a
`Json` inductive type; the parsed request body is an `Option Json`
(`none` models `request.get_json(silent=True)` returning `None`, i.e. the
body did not parse as JSON or had the wrong content type).  The single
outbound HTTP call is modelled as an oracle `Payload → UpstreamOutcome`
supplied to the handler; applying the oracle is the upstream call.
Python exceptions that escape the handler uncaught are modelled by the
dedicated results `ValidationResult.crash` / `ChatResult.crash`.
-/

namespace VoiceChatbot

/-- JSON values, as produced by parsing a request or an upstream response
body.  An `obj` models an already-built Python dict: keys are unique
(the JSON parser collapses duplicates), so lookup is plain association-list
lookup. -/
inductive Json where
  | null : Json
  | bool : Bool → Json
  | num : Int → Json
  | str : String → Json
  | arr : List Json → Json
  | obj : List (String × Json) → Json

/-- Python truthiness (`bool(x)`) of a JSON value: `None`, `False`, `0`,
`""`, `[]` and `\x7b\x7d` are falsy, everything else is truthy. -/
def Json.truthy : Json → Bool
  | .null => false
  | .bool b => b
  | .num n => n != 0
  | .str s => s != ""
  | .arr xs => !xs.isEmpty
  | .obj kvs => !kvs.isEmpty

/-- Whether the value is a JSON object (a Python dict). -/
def Json.isObj : Json → Bool
  | .obj _ => true
  | _ => false

/-- Whether the value is a JSON string (`isinstance(x, str)`). -/
def Json.isStr : Json → Bool
  | .str _ => true
  | _ => false

/-- The underlying string of a JSON string, `""` otherwise. -/
def Json.asStr : Json → String
  | .str s => s
  | _ => ""

/-- Characters removed by Python `str.strip()`, modelled for the ASCII
whitespace characters (space, tab, newline, carriage return, vertical
tab, form feed). -/
def pyIsSpace (c : Char) : Bool :=
  c == ' ' || c == '\t' || c == '\n' || c == '\r' || c == '\x0b' || c == '\x0c'

/-- Python `str.strip()`: drop leading and trailing whitespace. -/
def pyStrip (s : String) : String :=
  String.mk (((s.data.dropWhile pyIsSpace).reverse.dropWhile pyIsSpace).reverse)

-- ── Constants from app.py ────────────────────────────────────────────────────

/-- `MODEL_ID` constant of `app.py`. -/
def MODEL_ID : String := "openai/gpt-4o-mini"

/-- `REQUEST_TIMEOUT_SECONDS` constant of `app.py`. -/
def REQUEST_TIMEOUT_SECONDS : Nat := 30

/-- `MAX_MESSAGE_LENGTH` constant of `app.py`. -/
def MAX_MESSAGE_LENGTH : Nat := 2000

/-- `SYSTEM_PROMPT` constant of `app.py`, transcribed verbatim (Python
adjacent-literal concatenation becomes `++`; apostrophes are written with
the escape `\x27`). -/
def SYSTEM_PROMPT : String :=
  "You are a professional voice assistant. "
  ++ "The user is speaking to you; their words are transcribed by a browser speech recognition engine "
  ++ "which frequently mishears or phonetically mangles words — especially for math, science, and technical terms. "
  ++ "Your job is to infer the user\x27s true intent from context, even when the transcription is imperfect.\n\n"
  ++ "UNDERSTANDING VOICE TRANSCRIPTION ARTIFACTS:\n"
  ++ "- \x27hall square\x27, \x27whole square\x27, \x27whole squared\x27 = whole squared, as in (A+B)²\n"
  ++ "- \x27a plus b whole square\x27 = (A+B)², which expands to A² + 2AB + B²\n"
  ++ "- \x27pie\x27 or \x27pi\x27 = π (the mathematical constant)\n"
  ++ "- \x27root\x27 or \x27square root of X\x27 = √X\n"
  ++ "- \x27X squared\x27, \x27X to the power 2\x27 = X²\n"
  ++ "- \x27X cubed\x27, \x27X to the power 3\x27 = X³\n"
  ++ "- Letters like \x27a\x27, \x27b\x27, \x27x\x27, \x27y\x27, \x27n\x27 followed by math words are mathematical variables\n"
  ++ "- \x27sigma\x27 = Σ (summation), \x27delta\x27 = Δ, \x27theta\x27 = θ, \x27lambda\x27 = λ\n"
  ++ "- \x27integral of\x27, \x27differentiate\x27, \x27derivative of\x27 = calculus operations\n"
  ++ "- Garbled proper nouns, company names, or technical terms: infer from context\n"
  ++ "- If a word sounds like it might be a mishearing of a technical term, treat it as such\n\n"
  ++ "OUTPUT RULES:\n"
  ++ "1. Be concise — 1 to 3 sentences max unless the topic genuinely requires more detail.\n"
  ++ "2. No markdown, no bullet points, no asterisks, no code fences.\n"
  ++ "3. Do NOT repeat or echo the user\x27s garbled transcription. Answer the inferred question directly.\n"
  ++ "4. Never open with filler words like \x27Certainly\x27, \x27Of course\x27, \x27Sure\x27, or \x27Great question\x27. "
  ++ "Begin your answer immediately.\n"
  ++ "5. FORMULAS AND MATH: always write them using proper Unicode symbols — ², ³, √, π, Σ, ∫, ±, ≈, ≠, ≤, ≥, ∞, θ, λ, Δ, α, β, γ, etc. "
  ++ "For example: write \x27(A+B)² = A² + 2AB + B²\x27 not \x27A plus B whole squared equals A squared plus 2AB plus B squared\x27. "
  ++ "The app will convert symbols to spoken words before reading them aloud — you do not need to spell them out.\n"
  ++ "6. Prose surrounding formulas should still be plain conversational English.\n"
  ++ "7. Spell out non-math abbreviations: \x27as soon as possible\x27 not \x27ASAP\x27.\n"
  ++ "8. Match the user\x27s register: casual if casual, technical if technical.\n"
  ++ "9. If you cannot answer, say so in one sentence.\n"
  ++ "10. Never fabricate facts. If uncertain, say you are not sure."

-- ── Shared shapes ────────────────────────────────────────────────────────────

/-- `jsonify(\x7b"error": msg\x7d)`: the error body shape of every failure
response of the handler. -/
def errBody (msg : String) : Json := .obj [("error", .str msg)]

/-- Whether `os.getenv("OPENROUTER_API_KEY")` yields a truthy value:
`none` models an unset variable, `some ""` a set-but-empty one; both make
`not api_key` true in the handler. -/
def keyConfigured : Option String → Bool
  | none => false
  | some s => !(s == "")

/-- Python truthiness of the value returned by
`request.get_json(silent=True)` (`None` is falsy). -/
def jsonTruthyOpt : Option Json → Bool
  | none => false
  | some d => d.truthy

-- ── /chat: validation phase (Guards 1-4, app.py lines 139-164) ──────────────

/-- Outcome of the validation phase of the `/chat` handler.  `earlyResp`
is a `return` before the upstream call; `crash` is an uncaught Python
exception (the `AttributeError` from `data.get` on a non-dict value);
`proceed` carries the stripped user message with which the handler goes
on to call the upstream service. -/
inductive ValidationResult where
  | earlyResp : Nat → Json → ValidationResult
  | crash : ValidationResult
  | proceed : String → ValidationResult

/-- Guards 3 and 4 of the `/chat` handler (app.py lines 152-164):
`user_message = data.get("message", "")`, the `isinstance` check, the
strip, the emptiness check and the length check. -/
def chatFieldPhase (kvs : List (String × Json)) : ValidationResult :=
  match (kvs.lookup "message").getD (.str "") with
  | .str raw =>
    let userMessage := pyStrip raw
    if userMessage == "" then
      .earlyResp 400 (errBody "Message cannot be empty.")
    else if MAX_MESSAGE_LENGTH < userMessage.length then
      .earlyResp 400 (errBody ("Message exceeds the " ++ toString MAX_MESSAGE_LENGTH ++ "-character limit."))
    else
      .proceed userMessage
  | _ => .earlyResp 400 (errBody ("The " ++ "\x27" ++ "message" ++ "\x27" ++ " field must be a string."))

/-- The validation phase of the `/chat` handler (app.py lines 139-164):
Guard 1 (API key), Guard 2 (`if not data`, which rejects both an
unparseable body and a falsy JSON value), then Guards 3-4 on the parsed
dict.  A truthy non-dict JSON body reaches `data.get("message", "")`,
which raises an uncaught `AttributeError`: modelled as `.crash`. -/
def chatValidate (apiKey : Option String) (body : Option Json) : ValidationResult :=
  if !(keyConfigured apiKey) then
    .earlyResp 500 (errBody "Server configuration error: API key is missing.")
  else if !(jsonTruthyOpt body) then
    .earlyResp 400 (errBody "Request body must be JSON.")
  else
    match body with
    | some (.obj kvs) => chatFieldPhase kvs
    | _ => .crash

-- ── /chat: upstream payload (app.py lines 167-179) ───────────────────────────

/-- One entry of the `messages` sequence of the upstream payload. -/
structure ChatMessage where
  role : String
  content : String

/-- The JSON payload POSTed to the OpenRouter chat-completions endpoint
(app.py lines 167-179).  The Python float literal `0.7` is embedded as
the exact rational `7/10`. -/
structure Payload where
  model : String
  messages : List ChatMessage
  temperature : ℚ
  max_tokens : Nat

/-- Payload construction of the `/chat` handler: fixed model, a two-entry
message list (system prompt, then the stripped user message),
temperature `0.7`, `max_tokens` 512. -/
def buildPayload (userMessage : String) : Payload :=
  ⟨MODEL_ID, [⟨"system", SYSTEM_PROMPT⟩, ⟨"user", userMessage⟩], 7/10, 512⟩

-- ── /chat: upstream call and classification (app.py lines 191-242) ──────────

/-- Terminating outcomes of the single `requests.post` call: a timeout
(`requests.exceptions.Timeout`), a connection failure
(`requests.exceptions.ConnectionError`), or an HTTP response with a
status code and a body (`none` when the body is not valid JSON, so that
`response.json()` raises a `ValueError`). -/
inductive UpstreamOutcome where
  | timeout : UpstreamOutcome
  | connectionError : UpstreamOutcome
  | response : Nat → Option Json → UpstreamOutcome

/-- Result of evaluating
`response.json()["choices"][0]["message"]["content"].strip()` under the
`except (KeyError, IndexError, ValueError, TypeError)` clause of the
handler.  `caught` is any exception in that tuple (missing key, empty
list, non-JSON body, indexing a non-container); `uncaught` is the
`AttributeError` raised by `.strip()` when the value at the path is not
a string — that class is absent from the tuple, so it escapes the
handler. -/
inductive ExtractResult where
  | ok : String → ExtractResult
  | caught : ExtractResult
  | uncaught : ExtractResult

/-- Evaluation of `result["choices"][0]["message"]["content"].strip()`
on the parsed upstream body (app.py lines 223-226).  Indexing a string
with a string key, a dict with the int key `0`, or any scalar raises
`TypeError`/`KeyError`/`IndexError` (all caught); a string at `choices`
yields a one-character string whose `["message"]` raises `TypeError`
(caught) — every non-path shape lands in `caught`. -/
def extractReply (body : Option Json) : ExtractResult :=
  match body with
  | none => .caught
  | some result =>
    match result with
    | .obj kvs =>
      match kvs.lookup "choices" with
      | some (.arr (first :: _)) =>
        match first with
        | .obj kvs2 =>
          match kvs2.lookup "message" with
          | some (.obj kvs3) =>
            match kvs3.lookup "content" with
            | some (.str s) => .ok (pyStrip s)
            | some _ => .uncaught
            | none => .caught
          | some _ => .caught
          | none => .caught
        | _ => .caught
      | some (.arr []) => .caught
      | some _ => .caught
      | none => .caught
    | _ => .caught

/-- Final result of the `/chat` handler: an HTTP response
`(statusCode, jsonBody)`, or an uncaught exception escaping the handler
(`crash`), which the hosting framework turns into its own generic error
page rather than a JSON body produced by the handler. -/
inductive ChatResult where
  | resp : Nat → Json → ChatResult
  | crash : ChatResult

/-- `requests.Response.ok`, documented by the `requests` library as
`status_code < 400`. -/
def requestsOk (status : Nat) : Bool := status < 400

/-- Translation of a non-success upstream status code (app.py
lines 216-220): 429, then 401/403, then the generic message naming the
code. -/
def upstreamErrorResp (status : Nat) : ChatResult :=
  if status == 429 then
    .resp 502 (errBody "API rate limit reached. Please wait a moment and try again.")
  else if status == 401 || status == 403 then
    .resp 502 (errBody "API key is invalid or unauthorised.")
  else
    .resp 502 (errBody ("AI service returned an error (HTTP " ++ toString status ++ ")."))

/-- Reply extraction and the empty-reply guard on a successful upstream
response (app.py lines 222-242). -/
def extractPhase (body : Option Json) : ChatResult :=
  match extractReply body with
  | .caught => .resp 502 (errBody "Received an unexpected response from the AI service.")
  | .uncaught => .crash
  | .ok reply =>
    if reply == "" then
      .resp 502 (errBody "The AI returned an empty response. Please try rephrasing.")
    else
      .resp 200 (.obj [("reply", .str reply)])

/-- Classification of the upstream call's outcome (app.py
lines 191-242): timeout → 504, connection error → 502, a response with
`not response.ok` → the status-code translation, otherwise the
extraction phase. -/
def classifyUpstream : UpstreamOutcome → ChatResult
  | .timeout => .resp 504 (errBody "The AI service took too long to respond. Please try again.")
  | .connectionError => .resp 502 (errBody "Could not reach the AI service. Check your internet connection.")
  | .response status body =>
    if !(requestsOk status) then upstreamErrorResp status else extractPhase body

/-- The whole `/chat` handler.  `upstream` is the oracle for the one
outbound HTTP call: the handler applies it to the payload it built
exactly when validation reaches `proceed`. -/
def chat (apiKey : Option String) (body : Option Json)
    (upstream : Payload → UpstreamOutcome) : ChatResult :=
  match chatValidate apiKey body with
  | .earlyResp s b => .resp s b
  | .crash => .crash
  | .proceed m => classifyUpstream (upstream (buildPayload m))

-- ── /health (app.py lines 108-119) ───────────────────────────────────────────

/-- The `/health` handler: always 200 with the fixed status, the model
identifier, and whether the API key environment variable is set to a
truthy value. -/
def health (apiKey : Option String) : Nat × Json :=
  (200, .obj [("status", .str "ok"), ("model", .str MODEL_ID),
              ("api_key_configured", .bool (keyConfigured apiKey))])

-- ── Spec-side view: the five ordered validation checks (spec §4.1) ──────────

/-- Outcome of one validation check: pass, or fail with a status code and
an error body. -/
inductive CheckOutcome where
  | pass : CheckOutcome
  | fail : Nat → Json → CheckOutcome

/-- First failing check of an ordered list, if any. -/
def firstFail : List CheckOutcome → Option (Nat × Json)
  | [] => none
  | .pass :: rest => firstFail rest
  | .fail s b :: _ => some (s, b)

/-- The `message` field the handler would read from the parsed body
(`data.get("message", "")`), with the string default; `.str ""` for a
body that is not a JSON object (such a body never reaches the field
checks, because an earlier check fails first). -/
def rawMessage (body : Option Json) : Json :=
  match body with
  | some (.obj kvs) => (kvs.lookup "message").getD (.str "")
  | _ => .str ""

/-- The five validation checks of spec §4.1, in their fixed order, each
with the response the code produces when it is the first to fail.  The
second check is the code's `if not data` (body parses as JSON and is
truthy). -/
def orderedChecks (apiKey : Option String) (body : Option Json) : List CheckOutcome :=
  [ if keyConfigured apiKey then .pass
    else .fail 500 (errBody "Server configuration error: API key is missing."),
    if jsonTruthyOpt body then .pass
    else .fail 400 (errBody "Request body must be JSON."),
    if (rawMessage body).isStr then .pass
    else .fail 400 (errBody ("The " ++ "\x27" ++ "message" ++ "\x27" ++ " field must be a string.")),
    if pyStrip ((rawMessage body).asStr) == "" then .fail 400 (errBody "Message cannot be empty.")
    else .pass,
    if MAX_MESSAGE_LENGTH < (pyStrip ((rawMessage body).asStr)).length then
      .fail 400 (errBody ("Message exceeds the " ++ toString MAX_MESSAGE_LENGTH ++ "-character limit."))
    else .pass ]

/-- Running the ordered checks: the first failure's response, or
`proceed` with the stripped message when every check passes. -/
def runChecks (checks : List CheckOutcome) (strippedMessage : String) : ValidationResult :=
  match firstFail checks with
  | some (s, b) => .earlyResp s b
  | none => .proceed strippedMessage

/-- Bodies on which the validation phase does not raise: anything except
a truthy non-object JSON value (on those, `data.get` raises an uncaught
`AttributeError`). -/
def crashFreeBody : Option Json → Bool
  | none => true
  | some d => !d.truthy || d.isObj

/-- A well-formed upstream success body carrying the given value at the
reply-text path `choices[0].message.content`. -/
def replyAt (content : Json) : Json :=
  .obj [("choices", .arr [.obj [("message", .obj [("content", content)])]])]

-- ── Helper lemmas ────────────────────────────────────────────────────────────

theorem pyStrip_empty : pyStrip "" = "" := rfl

theorem string_eq_empty_of_length (t : String) (h : t.length = 0) : t = "" := by
  cases t with
  | mk data =>
    have hd : data = [] := List.length_eq_zero.mp h
    rw [hd]

theorem lookup_ne_nil {α β : Type} [BEq α] {l : List (α × β)} {k : α} {v : β}
    (h : l.lookup k = some v) : l ≠ [] := by
  intro hnil
  rw [hnil] at h
  simp [List.lookup] at h

theorem dropWhile_replicate_append {α : Type} (p : α → Bool) (c : α) (h : p c = true)
    (n : Nat) (l : List α) :
    List.dropWhile p (List.replicate n c ++ l) = List.dropWhile p l := by
  induction n with
  | zero => simp
  | succ k ih => simp [List.replicate_succ, List.dropWhile_cons, h, ih]

theorem dropWhile_replicate_self {α : Type} (p : α → Bool) (c : α) (h : p c = false)
    (n : Nat) :
    List.dropWhile p (List.replicate n c) = List.replicate n c := by
  cases n with
  | zero => rfl
  | succ k => simp [List.replicate_succ, List.dropWhile_cons, h]

/-- Stripping the 2001-character string made of one `a` and 2000 trailing
spaces yields `"a"`. -/
theorem pyStrip_pad : pyStrip (String.mk ('a' :: List.replicate 2000 ' ')) = "a" := by
  show String.mk ((((('a' :: List.replicate 2000 ' ')).dropWhile pyIsSpace).reverse.dropWhile
    pyIsSpace).reverse) = "a"
  rw [List.dropWhile_cons]
  rw [if_neg (by decide)]
  rw [List.reverse_cons, List.reverse_replicate]
  rw [dropWhile_replicate_append pyIsSpace ' ' rfl]
  rfl

/-- Stripping a 2001-character all-`a` string changes nothing. -/
theorem pyStrip_replicate_a :
    pyStrip (String.mk (List.replicate 2001 'a')) = String.mk (List.replicate 2001 'a') := by
  show String.mk ((((List.replicate 2001 'a').dropWhile pyIsSpace).reverse.dropWhile
    pyIsSpace).reverse) = _
  rw [dropWhile_replicate_self pyIsSpace 'a' rfl, List.reverse_replicate,
    dropWhile_replicate_self pyIsSpace 'a' rfl, List.reverse_replicate]

-- ── Claim theorems ───────────────────────────────────────────────────────────

/-- C3: for every request body (parseable or not) and any upstream
oracle, an unconfigured API key makes `/chat` return 500 with the
configuration error object, and the validation phase ends in an early
return (`earlyResp`), i.e. before the point where the upstream oracle
would be applied. -/
theorem C3_missing_key_short_circuits (apiKey : Option String) (body : Option Json)
    (upstream : Payload → UpstreamOutcome) (h : keyConfigured apiKey = false) :
    chat apiKey body upstream = .resp 500 (errBody "Server configuration error: API key is missing.")
    ∧ chatValidate apiKey body = .earlyResp 500 (errBody "Server configuration error: API key is missing.") := by
  have hv : chatValidate apiKey body
      = .earlyResp 500 (errBody "Server configuration error: API key is missing.") := by
    unfold chatValidate
    simp [h]
  constructor
  · unfold chat
    rw [hv]
  · exact hv

/-- Witness for C3: concrete instance with the key unset, an unparseable
body and a timing-out upstream. -/
theorem C3_missing_key_witness :
    keyConfigured none = false
    ∧ chat none none (fun _ => .timeout)
      = .resp 500 (errBody "Server configuration error: API key is missing.") :=
  ⟨rfl, (C3_missing_key_short_circuits none none (fun _ => .timeout) rfl).1⟩

/-- C8 (code bug): the handler does not always produce one of the two
JSON shapes.  With the key configured, the body `[1]` parses as a truthy
JSON array, so `data.get("message", "")` raises an uncaught
`AttributeError` and the handler produces no `(status, body)` pair at
all: `crash` is distinct from every `resp`. -/
theorem C8_response_shapes_code_bug :
    chat (some "k") (some (.arr [.num 1])) (fun _ => .timeout) = .crash
    ∧ ∀ (s : Nat) (b : Json), ChatResult.crash ≠ ChatResult.resp s b :=
  ⟨rfl, fun _ _ h => ChatResult.noConfusion h⟩

/-- C1 (code bug): concrete evaluation of the failure-classification
table for a validated request (`message = "hi"`): timeout → 504,
connection error → 502, 429 → 502 rate limit, 401/403 → 502 key error,
418 → 502 generic with the code, missing reply path → 502 unexpected,
whitespace-only reply → 502 empty, a real reply → 200 — and the
divergence: a success body whose `choices[0].message.content` is JSON
`null` makes `.strip()` raise an uncaught `AttributeError` (`crash`)
instead of the 502 unexpected-response error the classification
requires. -/
theorem C1_upstream_classification_code_bug :
    chat (some "k") (some (.obj [("message", .str "hi")])) (fun _ => .timeout)
      = .resp 504 (errBody "The AI service took too long to respond. Please try again.")
    ∧ chat (some "k") (some (.obj [("message", .str "hi")])) (fun _ => .connectionError)
      = .resp 502 (errBody "Could not reach the AI service. Check your internet connection.")
    ∧ chat (some "k") (some (.obj [("message", .str "hi")])) (fun _ => .response 429 none)
      = .resp 502 (errBody "API rate limit reached. Please wait a moment and try again.")
    ∧ chat (some "k") (some (.obj [("message", .str "hi")])) (fun _ => .response 401 none)
      = .resp 502 (errBody "API key is invalid or unauthorised.")
    ∧ chat (some "k") (some (.obj [("message", .str "hi")])) (fun _ => .response 403 none)
      = .resp 502 (errBody "API key is invalid or unauthorised.")
    ∧ chat (some "k") (some (.obj [("message", .str "hi")])) (fun _ => .response 418 none)
      = .resp 502 (errBody "AI service returned an error (HTTP 418).")
    ∧ chat (some "k") (some (.obj [("message", .str "hi")])) (fun _ => .response 200 (some (.obj [])))
      = .resp 502 (errBody "Received an unexpected response from the AI service.")
    ∧ chat (some "k") (some (.obj [("message", .str "hi")])) (fun _ => .response 200 (some (replyAt (.str "   "))))
      = .resp 502 (errBody "The AI returned an empty response. Please try rephrasing.")
    ∧ chat (some "k") (some (.obj [("message", .str "hi")])) (fun _ => .response 200 (some (replyAt (.str " hello "))))
      = .resp 200 (.obj [("reply", .str "hello")])
    ∧ chat (some "k") (some (.obj [("message", .str "hi")])) (fun _ => .response 200 (some (replyAt .null)))
      = .crash :=
  ⟨rfl, rfl, rfl, rfl, rfl, rfl, rfl, rfl, rfl, rfl⟩

/-- C9: an upstream HTTP response is routed to the error-classification
branch exactly when its status code is at least 400; every response with
a smaller status code (including 3xx redirects) proceeds to reply-text
extraction. -/
theorem C9_upstream_routing (status : Nat) (body : Option Json) :
    (400 ≤ status → classifyUpstream (.response status body) = upstreamErrorResp status)
    ∧ (status < 400 → classifyUpstream (.response status body) = extractPhase body) := by
  constructor
  · intro h
    unfold classifyUpstream requestsOk
    simp [Nat.not_lt.mpr h]
  · intro h
    unfold classifyUpstream requestsOk
    simp [h]

/-- Witness for C9: status 404 is classified as an upstream error,
status 302 (a redirect) proceeds to extraction. -/
theorem C9_upstream_routing_witness :
    ((400:Nat) ≤ 404 ∧ classifyUpstream (.response 404 none) = upstreamErrorResp 404)
    ∧ ((302:Nat) < 400 ∧ classifyUpstream (.response 302 none) = extractPhase none) :=
  ⟨⟨by decide, (C9_upstream_routing 404 none).1 (by decide)⟩,
   ⟨by decide, (C9_upstream_routing 302 none).2 (by decide)⟩⟩

/-- C10: `/health` always answers 200 with the fixed three-field body
whose only key-dependent part is the boolean `api_key_configured`; in
particular two configurations with the same configured-flag produce
identical bodies, so the key value itself never influences (and never
appears in) the response. -/
theorem C10_health_noninterference :
    (∀ k, health k = (200, Json.obj [("status", .str "ok"), ("model", .str MODEL_ID),
        ("api_key_configured", .bool (keyConfigured k))]))
    ∧ ∀ k₁ k₂, keyConfigured k₁ = keyConfigured k₂ → health k₁ = health k₂ := by
  constructor
  · intro k
    rfl
  · intro k₁ k₂ h
    unfold health
    rw [h]

/-- Witness for C10: two different secrets yield the identical `/health`
response. -/
theorem C10_health_witness :
    health (some "first-secret") = health (some "second-secret") :=
  C10_health_noninterference.2 (some "first-secret") (some "second-secret") rfl

/-- C7: whenever validation succeeds with stripped message `m`, the
payload built for the upstream call has exactly the two messages
(system prompt verbatim, then `m`), temperature `0.7`, `max_tokens`
512 and the fixed model; moreover `m` really is the stripped `message`
string of the request body, and the handler's result is the
classification of the oracle applied to exactly this payload. -/
theorem C7_payload_shape (apiKey : Option String) (body : Option Json) (m : String)
    (h : chatValidate apiKey body = .proceed m) :
    (buildPayload m).messages = [⟨"system", SYSTEM_PROMPT⟩, ⟨"user", m⟩]
    ∧ (buildPayload m).temperature = 7/10
    ∧ (buildPayload m).max_tokens = 512
    ∧ (buildPayload m).model = MODEL_ID
    ∧ (∃ kvs raw, body = some (.obj kvs) ∧ kvs.lookup "message" = some (.str raw) ∧ m = pyStrip raw)
    ∧ ∀ upstream, chat apiKey body upstream = classifyUpstream (upstream (buildPayload m)) := by
  refine ⟨rfl, rfl, rfl, rfl, ?_, ?_⟩
  · cases hk : keyConfigured apiKey with
    | false =>
      unfold chatValidate at h
      rw [hk] at h
      simp at h
    | true =>
      cases hb : jsonTruthyOpt body with
      | false =>
        unfold chatValidate at h
        rw [hk, hb] at h
        simp at h
      | true =>
        unfold chatValidate at h
        rw [hk, hb] at h
        simp only [Bool.not_true, Bool.false_eq_true, if_false, ite_false] at h
        cases body with
        | none => exact absurd hb (by simp [jsonTruthyOpt])
        | some d =>
          cases d with
          | null => exact ValidationResult.noConfusion h
          | bool b => exact ValidationResult.noConfusion h
          | num n => exact ValidationResult.noConfusion h
          | str s => exact ValidationResult.noConfusion h
          | arr xs => exact ValidationResult.noConfusion h
          | obj kvs =>
            have hf : chatFieldPhase kvs = ValidationResult.proceed m := h
            refine ⟨kvs, ?_⟩
            unfold chatFieldPhase at hf
            cases hl : kvs.lookup "message" with
            | none =>
              rw [hl] at hf
              simp only [Option.getD_none, pyStrip_empty] at hf
              simp at hf
            | some j =>
              rw [hl] at hf
              cases j with
              | str raw =>
                simp only [Option.getD_some] at hf
                by_cases he : pyStrip raw == ""
                · simp only [he, if_true] at hf
                  exact absurd hf (by simp)
                · simp only [he, if_false, Bool.false_eq_true] at hf
                  by_cases hlen : MAX_MESSAGE_LENGTH < (pyStrip raw).length
                  · rw [if_pos hlen] at hf
                    exact absurd hf (by simp)
                  · rw [if_neg hlen] at hf
                    injection hf with hm
                    exact ⟨raw, rfl, rfl, hm.symm⟩
              | null => exact absurd hf (by simp)
              | bool b => exact absurd hf (by simp)
              | num n => exact absurd hf (by simp)
              | arr xs => exact absurd hf (by simp)
              | obj kvs2 => exact absurd hf (by simp)
  · intro upstream
    unfold chat
    rw [h]

/-- Witness for C7: the body `\x7b"message": " hi "\x7d` with a
configured key validates to `"hi"`, and the built payload carries the
two-message sequence. -/
theorem C7_payload_witness :
    (buildPayload "hi").messages = [⟨"system", SYSTEM_PROMPT⟩, ⟨"user", "hi"⟩] :=
  (C7_payload_shape (some "k") (some (.obj [("message", .str " hi ")])) "hi" rfl).1

/-- C2: the key check runs first and is independent of the body (an
unconfigured key gives the 500 response for every body, parseable or
not); and on every body on which the handler does not raise, the
validation phase equals running the five checks in their fixed order
and answering with the first failure (500 for the configuration check,
400 for the rest), or proceeding with the stripped message when all
five pass. -/
theorem C2_validation_order (apiKey : Option String) (body : Option Json) :
    (keyConfigured apiKey = false →
      ∀ b : Option Json, chatValidate apiKey b
        = .earlyResp 500 (errBody "Server configuration error: API key is missing."))
    ∧ (crashFreeBody body = true →
      chatValidate apiKey body
        = runChecks (orderedChecks apiKey body) (pyStrip ((rawMessage body).asStr))) := by
  constructor
  · intro hk b
    unfold chatValidate
    simp [hk]
  · intro hcf
    cases hk : keyConfigured apiKey with
    | false =>
      unfold chatValidate runChecks orderedChecks
      simp [hk, firstFail]
    | true =>
      cases hb : jsonTruthyOpt body with
      | false =>
        unfold chatValidate runChecks orderedChecks
        simp [hk, hb, firstFail]
      | true =>
        cases body with
        | none => simp [jsonTruthyOpt] at hb
        | some d =>
          cases d with
          | null => simp [jsonTruthyOpt, Json.truthy] at hb
          | bool b => simp_all [crashFreeBody, Json.truthy, Json.isObj, jsonTruthyOpt]
          | num n => simp_all [crashFreeBody, Json.truthy, Json.isObj, jsonTruthyOpt]
          | str s => simp_all [crashFreeBody, Json.truthy, Json.isObj, jsonTruthyOpt]
          | arr xs => simp_all [crashFreeBody, Json.truthy, Json.isObj, jsonTruthyOpt]
          | obj kvs =>
            have hv : chatValidate apiKey (some (.obj kvs)) = chatFieldPhase kvs := by
              unfold chatValidate
              simp [hk, hb]
            rw [hv]
            cases hl : kvs.lookup "message" with
            | none =>
              simp [chatFieldPhase, runChecks, orderedChecks, rawMessage, hl, hk, hb,
                firstFail, Json.isStr, Json.asStr, pyStrip_empty]
            | some j =>
              cases j with
              | str raw =>
                by_cases he : pyStrip raw = ""
                · simp [chatFieldPhase, runChecks, orderedChecks, rawMessage, hl, hk,
                    hb, firstFail, Json.isStr, Json.asStr, he]
                · by_cases hlen : MAX_MESSAGE_LENGTH < (pyStrip raw).length
                  · simp [chatFieldPhase, runChecks, orderedChecks, rawMessage, hl,
                      hk, hb, firstFail, Json.isStr, Json.asStr, he, hlen]
                  · simp [chatFieldPhase, runChecks, orderedChecks, rawMessage, hl,
                      hk, hb, firstFail, Json.isStr, Json.asStr, he, hlen]
              | null =>
                simp [chatFieldPhase, runChecks, orderedChecks, rawMessage, hl, hk,
                  hb, firstFail, Json.isStr, Json.asStr, pyStrip_empty]
              | bool b =>
                simp [chatFieldPhase, runChecks, orderedChecks, rawMessage, hl, hk,
                  hb, firstFail, Json.isStr, Json.asStr, pyStrip_empty]
              | num n =>
                simp [chatFieldPhase, runChecks, orderedChecks, rawMessage, hl, hk,
                  hb, firstFail, Json.isStr, Json.asStr, pyStrip_empty]
              | arr xs =>
                simp [chatFieldPhase, runChecks, orderedChecks, rawMessage, hl, hk,
                  hb, firstFail, Json.isStr, Json.asStr, pyStrip_empty]
              | obj kvs2 =>
                simp [chatFieldPhase, runChecks, orderedChecks, rawMessage, hl, hk,
                  hb, firstFail, Json.isStr, Json.asStr, pyStrip_empty]

/-- Witness for C2: a concrete crash-free request on which the handler
equals the ordered-check run (all five checks pass and the stripped
message proceeds). -/
theorem C2_validation_order_witness :
    crashFreeBody (some (.obj [("message", .str " hi ")])) = true
    ∧ chatValidate (some "k") (some (.obj [("message", .str " hi ")]))
      = runChecks (orderedChecks (some "k") (some (.obj [("message", .str " hi ")])))
          (pyStrip ((rawMessage (some (.obj [("message", .str " hi ")]))).asStr)) :=
  ⟨rfl, (C2_validation_order (some "k") (some (.obj [("message", .str " hi ")]))).2 rfl⟩

/-- Counterexample to C4: the empty JSON object parses as a JSON object,
yet the handler answers it with the 400 body-check error instead of
passing it on to the field-type check (which would end in "Message
cannot be empty."); and the body `[1]`, which does not parse as a JSON
object, does not get the 400 body-check error either — the handler
raises (`crash`). -/
theorem C4_body_check_counterexample :
    (Json.isObj (.obj []) = true
     ∧ chatValidate (some "k") (some (.obj [])) = .earlyResp 400 (errBody "Request body must be JSON.")
     ∧ chatFieldPhase [] = .earlyResp 400 (errBody "Message cannot be empty.")
     ∧ errBody "Request body must be JSON." ≠ errBody "Message cannot be empty.")
    ∧ (Json.isObj (.arr [.num 1]) = false
     ∧ chatValidate (some "k") (some (.arr [.num 1])) = .crash
     ∧ ∀ (s : Nat) (b : Json), ValidationResult.crash ≠ ValidationResult.earlyResp s b) := by
  refine ⟨⟨rfl, rfl, rfl, ?_⟩, rfl, rfl, fun s b h => ValidationResult.noConfusion h⟩
  simp [errBody]

/-- C4 as amended: with the key configured, a body that fails to parse
as JSON or parses to a falsy JSON value (null, false, 0, empty string,
empty array, empty object) gets 400 "Request body must be JSON."; a
body parsing to a truthy JSON object passes the check and evaluation
proceeds to the field-type phase; a body parsing to a truthy non-object
JSON value makes the handler raise instead of answering. -/
theorem C4_body_check_amended (apiKey : Option String) (body : Option Json)
    (hk : keyConfigured apiKey = true) :
    (jsonTruthyOpt body = false →
      chatValidate apiKey body = .earlyResp 400 (errBody "Request body must be JSON."))
    ∧ (∀ kvs, body = some (.obj kvs) → Json.truthy (.obj kvs) = true →
      chatValidate apiKey body = chatFieldPhase kvs)
    ∧ (∀ d, body = some d → d.truthy = true → d.isObj = false →
      chatValidate apiKey body = .crash) := by
  refine ⟨?_, ?_, ?_⟩
  · intro hb
    unfold chatValidate
    simp [hk, hb]
  · intro kvs hbody ht
    subst hbody
    unfold chatValidate
    simp [hk, jsonTruthyOpt, ht]
  · intro d hbody ht hobj
    subst hbody
    unfold chatValidate
    simp [hk, jsonTruthyOpt, ht]
    cases d with
    | null => rfl
    | bool b => rfl
    | num n => rfl
    | str s => rfl
    | arr xs => rfl
    | obj kvs => simp [Json.isObj] at hobj

/-- Witness for C4 (amended): a concrete unparseable body with the key
configured gets the body-check 400. -/
theorem C4_body_check_witness :
    chatValidate (some "k") none = .earlyResp 400 (errBody "Request body must be JSON.") :=
  (C4_body_check_amended (some "k") none rfl).1 rfl

/-- Counterexample to C5: the empty JSON object is a JSON object without
a `message` field, but the handler answers it with the body-check error
"Request body must be JSON.", not with "Message cannot be empty." as
the claim states. -/
theorem C5_missing_field_counterexample :
    List.lookup "message" ([] : List (String × Json)) = none
    ∧ chatValidate (some "k") (some (.obj [])) = .earlyResp 400 (errBody "Request body must be JSON.")
    ∧ ValidationResult.earlyResp 400 (errBody "Request body must be JSON.")
      ≠ ValidationResult.earlyResp 400 (errBody "Message cannot be empty.") := by
  refine ⟨rfl, rfl, ?_⟩
  simp [errBody]

/-- C5 as amended: with the key configured, a request whose body is a
non-empty JSON object without a `message` field defaults the field to
the empty string, passes the string-type check and fails the emptiness
check with 400 "Message cannot be empty."; a present non-string
`message` field instead gets the 400 type error. -/
theorem C5_missing_field_amended (apiKey : Option String) (kvs : List (String × Json))
    (hk : keyConfigured apiKey = true) :
    (kvs ≠ [] → kvs.lookup "message" = none →
      chatValidate apiKey (some (.obj kvs)) = .earlyResp 400 (errBody "Message cannot be empty."))
    ∧ (∀ j, kvs.lookup "message" = some j → j.isStr = false →
      chatValidate apiKey (some (.obj kvs))
        = .earlyResp 400 (errBody ("The " ++ "\x27" ++ "message" ++ "\x27" ++ " field must be a string."))) := by
  constructor
  · intro hne hl
    have htr : jsonTruthyOpt (some (.obj kvs)) = true := by
      cases kvs with
      | nil => exact absurd rfl hne
      | cons p rest => rfl
    unfold chatValidate
    simp [hk, htr]
    simp [chatFieldPhase, hl, pyStrip_empty]
  · intro j hl hj
    have hne : kvs ≠ [] := lookup_ne_nil hl
    have htr : jsonTruthyOpt (some (.obj kvs)) = true := by
      cases kvs with
      | nil => exact absurd rfl hne
      | cons p rest => rfl
    unfold chatValidate
    simp [hk, htr]
    cases j with
    | str s => simp [Json.isStr] at hj
    | null => simp [chatFieldPhase, hl]
    | bool b => simp [chatFieldPhase, hl]
    | num n => simp [chatFieldPhase, hl]
    | arr xs => simp [chatFieldPhase, hl]
    | obj kvs2 => simp [chatFieldPhase, hl]

/-- Witness for C5 (amended): the non-empty object without a `message`
field gets "Message cannot be empty.", and the present non-string field
gets the type error. -/
theorem C5_missing_field_witness :
    chatValidate (some "k") (some (.obj [("x", .num 1)]))
      = .earlyResp 400 (errBody "Message cannot be empty.") :=
  (C5_missing_field_amended (some "k") [("x", .num 1)] rfl).1 (by simp) rfl

/-- Counterexample to C6: a 2001-character message (one `a` followed by
2000 spaces) is longer than 2000 characters, yet validation succeeds
(the length check runs on the stripped message, here `"a"`), so the
handler goes on to the upstream call instead of returning 400. -/
theorem C6_length_check_counterexample :
    2000 < (String.mk ('a' :: List.replicate 2000 ' ')).length
    ∧ chatValidate (some "k")
        (some (.obj [("message", .str (String.mk ('a' :: List.replicate 2000 ' ')))]))
      = .proceed "a" := by
  have hpad := pyStrip_pad
  constructor
  · show 2000 < ('a' :: List.replicate 2000 ' ').length
    rw [List.length_cons, List.length_replicate]
    omega
  · generalize hg : String.mk ('a' :: List.replicate 2000 ' ') = pad at hpad ⊢
    unfold chatValidate
    simp [keyConfigured, jsonTruthyOpt, Json.truthy]
    simp [chatFieldPhase, List.lookup, hpad, MAX_MESSAGE_LENGTH,
      show ("a" : String).length = 1 from rfl]

/-- C6 as amended: with the key configured, a `message` string whose
*stripped* form is longer than 2000 characters gets 400 with the
limit-naming error, and the handler returns it for every upstream
oracle, i.e. without applying the oracle (no upstream call). -/
theorem C6_length_check_amended (apiKey : Option String) (kvs : List (String × Json))
    (raw : String) (hk : keyConfigured apiKey = true)
    (hm : kvs.lookup "message" = some (.str raw))
    (hlen : MAX_MESSAGE_LENGTH < (pyStrip raw).length) :
    chatValidate apiKey (some (.obj kvs))
      = .earlyResp 400 (errBody ("Message exceeds the " ++ toString MAX_MESSAGE_LENGTH ++ "-character limit."))
    ∧ ∀ upstream, chat apiKey (some (.obj kvs)) upstream
      = .resp 400 (errBody ("Message exceeds the " ++ toString MAX_MESSAGE_LENGTH ++ "-character limit.")) := by
  have hne : kvs ≠ [] := lookup_ne_nil hm
  have htr : jsonTruthyOpt (some (.obj kvs)) = true := by
    cases kvs with
    | nil => exact absurd rfl hne
    | cons p rest => rfl
  have he : ¬ pyStrip raw = "" := by
    intro h
    rw [h] at hlen
    exact absurd hlen (by decide)
  have hv : chatValidate apiKey (some (.obj kvs))
      = .earlyResp 400 (errBody ("Message exceeds the " ++ toString MAX_MESSAGE_LENGTH ++ "-character limit.")) := by
    unfold chatValidate
    simp [hk, htr]
    simp [chatFieldPhase, hm, he, hlen]
  refine ⟨hv, fun upstream => ?_⟩
  unfold chat
  rw [hv]

/-- Witness for C6 (amended): a 2001-character all-`a` message strips to
itself, exceeds the limit, and gets the 400 limit error. -/
theorem C6_length_check_witness :
    MAX_MESSAGE_LENGTH < (pyStrip (String.mk (List.replicate 2001 'a'))).length
    ∧ chatValidate (some "k")
        (some (.obj [("message", .str (String.mk (List.replicate 2001 'a')))]))
      = .earlyResp 400 (errBody ("Message exceeds the " ++ toString MAX_MESSAGE_LENGTH ++ "-character limit.")) := by
  have hlen : MAX_MESSAGE_LENGTH < (pyStrip (String.mk (List.replicate 2001 'a'))).length := by
    rw [pyStrip_replicate_a]
    show MAX_MESSAGE_LENGTH < (List.replicate 2001 'a').length
    rw [List.length_replicate]
    decide
  exact ⟨hlen,
    (C6_length_check_amended (some "k")
      [("message", .str (String.mk (List.replicate 2001 'a')))]
      (String.mk (List.replicate 2001 'a')) rfl rfl hlen).1⟩

end VoiceChatbot
